import Mathlib

/-!
Shallow embedding of the school-directory application query-composition,
result-mapping, comparison-engine and star-rendering logic, together with
theorems checking the natural-language specification against it.

Sources embedded here:
- `src/src/pages/SearchPage.tsx`: `searchSchools` (query builder, result
  mapper, error path), `renderStars`.
- `src/src/pages/ComparePage.tsx`: `searchSchools` (compare-add query,
  result mapper, result filtering), `addSchool`, `removeSchool`,
  `getHighestRating`, the per-cell highlight predicate, `renderStars`,
  and the `HomePage` featured-schools mapping in the same file.

Numbers of type `number` in the source are modelled as `ℚ`; nullable
fields as `Option`; JS objects with conditionally-present keys as
structures of `Option` fields.
-/

namespace SchoolEval

/-! ## Data model -/

/-- The `School` shape used by the Compare view (interface `School` in
`ComparePage.tsx`): all six rating fields are declared as numbers. -/
structure School where
  id : String
  name : String
  address : String
  city : String
  state : String
  phone : Option String
  website : Option String
  schoolType : String
  gradeLevels : String
  overallRating : ℚ
  academicsRating : ℚ
  facilitiesRating : ℚ
  teachersRating : ℚ
  safetyRating : ℚ
  extracurricularsRating : ℚ
  totalReviews : ℚ
deriving DecidableEq, Repr

/-- The six rating dimensions the comparison table iterates over. -/
inductive RatingCategory where
  | overallRating
  | academicsRating
  | facilitiesRating
  | teachersRating
  | safetyRating
  | extracurricularsRating
deriving DecidableEq, Repr

/-- Field access `school[category]` for a rating category. -/
def School.rating (s : School) : RatingCategory → ℚ
  | .overallRating => s.overallRating
  | .academicsRating => s.academicsRating
  | .facilitiesRating => s.facilitiesRating
  | .teachersRating => s.teachersRating
  | .safetyRating => s.safetyRating
  | .extracurricularsRating => s.extracurricularsRating

/-! ## Query specification model

`blink.db.schools.list({ where?, orderBy, limit })` receives a plain JS
object.  Conditionally-assigned keys of the `where` object become
`Option` fields; the `where` key itself is `Option` because the code
passes `undefined` when no clause was assigned. -/

inductive SortDir where
  | asc
  | desc
deriving DecidableEq, Repr

/-- A one-key `orderBy` object such as `overall_rating: desc`. -/
structure OrderSpec where
  field : String
  dir : SortDir
deriving DecidableEq, Repr

/-- One `{ field: { contains: text } }` clause inside the `OR` list. -/
structure ContainsClause where
  field : String
  text : String
deriving DecidableEq, Repr

/-- The `whereClause` object built by `searchSchools` in
`SearchPage.tsx`; each key is present exactly when the code assigns it. -/
structure WhereClause where
  OR : Option (List ContainsClause) := none
  school_type : Option (List String) := none
  grade_levels : Option String := none
  overall_rating : Option ℚ := none
deriving DecidableEq, Repr

/-- The argument object of a `list` call. -/
structure ListSpec where
  whereOpt : Option WhereClause
  orderBy : OrderSpec
  limit : Nat
deriving DecidableEq, Repr

/-- The `Filters` state of the Search view. -/
structure Filters where
  schoolType : List String
  gradeLevel : String
  minRating : ℚ
  sortBy : String

/-- The three-way text disjunction `OR: [{name: {contains: q}},
{city: {contains: q}}, {address: {contains: q}}]`. -/
def textOrClauses (q : String) : List ContainsClause :=
  [⟨"name", q⟩, ⟨"city", q⟩, ⟨"address", q⟩]

/-- JS `String.prototype.trim()`: strips leading and trailing
whitespace from the string. -/
def jsTrim (s : String) : String :=
  String.mk (((s.data.dropWhile Char.isWhitespace).reverse.dropWhile
    Char.isWhitespace).reverse)

/-- The `whereClause` accumulation in `SearchPage.tsx` lines 59-83:
each key is assigned under the truthiness test of the code.  Note the text
clause tests `searchQuery.trim()` but stores the untrimmed query. -/
def buildWhere (searchQuery : String) (f : Filters) : WhereClause :=
  { OR := if jsTrim searchQuery ≠ "" then some (textOrClauses searchQuery) else none
    school_type := if 0 < f.schoolType.length then some f.schoolType else none
    grade_levels := if f.gradeLevel ≠ "" then some f.gradeLevel else none
    overall_rating := if 0 < f.minRating then some f.minRating else none }

/-- The `switch (filters.sortBy)` in `SearchPage.tsx` lines 87-99. -/
def sortOrder (sortBy : String) : OrderSpec :=
  if sortBy = "rating" then ⟨"overall_rating", SortDir.desc⟩
  else if sortBy = "reviews" then ⟨"total_reviews", SortDir.desc⟩
  else if sortBy = "name" then ⟨"name", SortDir.asc⟩
  else ⟨"overall_rating", SortDir.desc⟩

/-- `Object.keys(whereClause).length > 0`: some key was assigned. -/
def WhereClause.hasAnyKey (w : WhereClause) : Bool :=
  w.OR.isSome || w.school_type.isSome || w.grade_levels.isSome || w.overall_rating.isSome

/-- The full `list` argument issued by the Search view
(`SearchPage.tsx` lines 101-105). -/
def searchSchoolsSpec (searchQuery : String) (f : Filters) : ListSpec :=
  let w := buildWhere searchQuery f
  { whereOpt := if w.hasAnyKey then some w else none
    orderBy := sortOrder f.sortBy
    limit := 50 }

/-- The `list` call issued by the compare-add search box
(`ComparePage.tsx` lines 40-58); `none` models the early return when the
trimmed query is empty (no query is issued at all). -/
def compareSearchSpec (searchQuery : String) : Option ListSpec :=
  if jsTrim searchQuery = "" then none
  else some
    { whereOpt := some { OR := some (textOrClauses searchQuery) }
      orderBy := ⟨"overall_rating", SortDir.desc⟩
      limit := 10 }

/-! ## Comparison engine (`ComparePage.tsx`) -/

/-- The local state of the Compare view relevant to selection and the
add-search result list. -/
structure CompareState where
  selectedSchools : List School
  searchResults : List School
  searchQuery : String
  showSearch : Bool
deriving Repr

/-- `addSchool` (`ComparePage.tsx` lines 98-105): guarded append to the
comparison set, removal of the added id from the visible results, and
reset of the search box. -/
def addSchool (st : CompareState) (school : School) : CompareState :=
  if st.selectedSchools.length < 4 ∧
      ¬ st.selectedSchools.any (fun s => s.id == school.id) then
    { selectedSchools := st.selectedSchools ++ [school]
      searchResults := st.searchResults.filter (fun s => ! (s.id == school.id))
      searchQuery := ""
      showSearch := false }
  else st

/-- `removeSchool` (`ComparePage.tsx` lines 107-109). -/
def removeSchool (st : CompareState) (schoolId : String) : CompareState :=
  { st with selectedSchools := st.selectedSchools.filter (fun s => ! (s.id == schoolId)) }

/-- `setSearchResults(schools.filter(...))` (`ComparePage.tsx` lines
79-81): backend results are filtered against the current selection
before they are displayed. -/
def receiveResults (st : CompareState) (schools : List School) : CompareState :=
  { st with searchResults :=
      schools.filter (fun school => ! st.selectedSchools.any (fun s => s.id == school.id)) }

/-- `Math.max(x, xs...)` over a spread nonempty list; the `[]` case is
unreachable at the one call site, which is guarded by a length test. -/
def jsMathMax : List ℚ → ℚ
  | [] => 0
  | x :: xs => xs.foldl max x

/-- `getHighestRating` (`ComparePage.tsx` lines 134-137). -/
def getHighestRating (selectedSchools : List School) (category : RatingCategory) : ℚ :=
  if selectedSchools.length = 0 then 0
  else jsMathMax (selectedSchools.map (fun school => school.rating category))

/-- The per-cell highlight test in the comparison table
(`ComparePage.tsx` lines 326, 344, 358, ...):
`school[category] === getHighestRating(category)`. -/
def isHighlighted (selectedSchools : List School) (category : RatingCategory)
    (school : School) : Bool :=
  decide (school.rating category = getHighestRating selectedSchools category)

/-! ## Result mappers

Raw backend records use snake_case keys; nullable numeric fields are
`Option ℚ`.  Each view maps records into its own local shape. -/

/-- A raw record of the `schools` collection. -/
structure RawSchool where
  id : String
  name : String
  address : String
  city : String
  state : String
  zip_code : Option String
  phone : Option String
  website : Option String
  school_type : String
  grade_levels : String
  description : Option String
  image_url : Option String
  overall_rating : Option ℚ
  academics_rating : Option ℚ
  facilities_rating : Option ℚ
  teachers_rating : Option ℚ
  safety_rating : Option ℚ
  extracurriculars_rating : Option ℚ
  total_reviews : Option ℚ
deriving DecidableEq, Repr

/-- JS `x || 0` on a nullable number: null/undefined and the falsy
value `0` both yield `0`, any other number passes through. -/
def jsOrZero : Option ℚ → ℚ
  | none => 0
  | some x => if x = 0 then 0 else x

/-- The local `School` shape of the Search view (interface `School` in
`SearchPage.tsx`). -/
structure SearchSchool where
  id : String
  name : String
  address : String
  city : String
  state : String
  schoolType : String
  gradeLevels : String
  overallRating : ℚ
  totalReviews : ℚ
  imageUrl : Option String
deriving DecidableEq, Repr

/-- The result mapping of the Search view (`SearchPage.tsx` lines 107-118):
rating fields are defaulted with `|| 0`. -/
def mapSearchSchool (school : RawSchool) : SearchSchool :=
  { id := school.id
    name := school.name
    address := school.address
    city := school.city
    state := school.state
    schoolType := school.school_type
    gradeLevels := school.grade_levels
    overallRating := jsOrZero school.overall_rating
    totalReviews := jsOrZero school.total_reviews
    imageUrl := school.image_url }

/-- The runtime shape produced by the add-search mapping of the Compare view:
rating fields are copied through with no defaulting, so an absent source
field stays absent (the TS interface `School` declares them as plain
`number`, which this mapping does not actually guarantee). -/
structure CompareMappedSchool where
  id : String
  name : String
  address : String
  city : String
  state : String
  phone : Option String
  website : Option String
  schoolType : String
  gradeLevels : String
  overallRating : Option ℚ
  academicsRating : Option ℚ
  facilitiesRating : Option ℚ
  teachersRating : Option ℚ
  safetyRating : Option ℚ
  extracurricularsRating : Option ℚ
  totalReviews : Option ℚ
deriving DecidableEq, Repr

/-- The add-search mapping of the Compare view (`ComparePage.tsx` lines
60-77): every field, ratings included, is mapped by identity. -/
def mapCompareSchool (school : RawSchool) : CompareMappedSchool :=
  { id := school.id
    name := school.name
    address := school.address
    city := school.city
    state := school.state
    phone := school.phone
    website := school.website
    schoolType := school.school_type
    gradeLevels := school.grade_levels
    overallRating := school.overall_rating
    academicsRating := school.academics_rating
    facilitiesRating := school.facilities_rating
    teachersRating := school.teachers_rating
    safetyRating := school.safety_rating
    extracurricularsRating := school.extracurriculars_rating
    totalReviews := school.total_reviews }

/-- The runtime shape produced by the home page featured-schools
mapping: `overallRating` and `totalReviews` are copied through with no
defaulting. -/
structure HomeSchool where
  id : String
  name : String
  address : String
  city : String
  state : String
  schoolType : String
  gradeLevels : String
  overallRating : Option ℚ
  totalReviews : Option ℚ
  imageUrl : Option String
deriving DecidableEq, Repr

/-- The home page featured-schools mapping (`HomePage`,
`ComparePage.tsx` lines 550-561): rating fields mapped by identity. -/
def mapHomeSchool (school : RawSchool) : HomeSchool :=
  { id := school.id
    name := school.name
    address := school.address
    city := school.city
    state := school.state
    schoolType := school.school_type
    gradeLevels := school.grade_levels
    overallRating := school.overall_rating
    totalReviews := school.total_reviews
    imageUrl := school.image_url }

/-- A raw record of the `reviews` collection. -/
structure RawReview where
  id : String
  overall_rating : Option ℚ
  academics_rating : Option ℚ
  facilities_rating : Option ℚ
  teachers_rating : Option ℚ
  safety_rating : Option ℚ
  extracurriculars_rating : Option ℚ
  title : String
  content : String
  pros : Option String
  cons : Option String
  would_recommend : ℚ
  graduation_year : Option ℚ
  relationship : String
  created_at : String
  user_id : String
deriving DecidableEq, Repr

/-- The `Review` shape of the details view. -/
structure Review where
  id : String
  overallRating : ℚ
  academicsRating : ℚ
  facilitiesRating : ℚ
  teachersRating : ℚ
  safetyRating : ℚ
  extracurricularsRating : ℚ
  title : String
  content : String
  pros : Option String
  cons : Option String
  wouldRecommend : Bool
  graduationYear : Option ℚ
  relationship : String
  createdAt : String
  userId : String
deriving DecidableEq, Repr

/-- The review mapping in `loadReviews` (`SchoolDetailsPage`,
`SearchPage.tsx` lines 523-540): ratings defaulted with `|| 0`,
`wouldRecommend` computed as `Number(review.would_recommend) > 0`. -/
def mapReview (review : RawReview) : Review :=
  { id := review.id
    overallRating := jsOrZero review.overall_rating
    academicsRating := jsOrZero review.academics_rating
    facilitiesRating := jsOrZero review.facilities_rating
    teachersRating := jsOrZero review.teachers_rating
    safetyRating := jsOrZero review.safety_rating
    extracurricularsRating := jsOrZero review.extracurriculars_rating
    title := review.title
    content := review.content
    pros := review.pros
    cons := review.cons
    wouldRecommend := decide (0 < review.would_recommend)
    graduationYear := review.graduation_year
    relationship := review.relationship
    createdAt := review.created_at
    userId := review.user_id }

/-! ## Fetch error paths -/

/-- State transition of `setSchools`/the `catch` branch in the Search
searchSchools of the Search view (`SearchPage.tsx` lines 101-123): on success the
mapped results replace the list, on failure the error is only logged and
the previously displayed list is left untouched. -/
def searchFetchUpdate (prev : List SearchSchool)
    (outcome : Except String (List RawSchool)) : List SearchSchool :=
  match outcome with
  | Except.ok results => results.map mapSearchSchool
  | Except.error _ => prev

/-- The same pattern in the compare-add fetch (`ComparePage.tsx` lines
47-86): on success the filtered results replace `searchResults`, on
failure the state is left untouched. -/
def compareFetchUpdate (st : CompareState)
    (outcome : Except String (List School)) : CompareState :=
  match outcome with
  | Except.ok schools => receiveResults st schools
  | Except.error _ => st

/-! ## Rating renderer -/

inductive StarGlyph where
  | full
  | half
  | empty
deriving DecidableEq, Repr

/-- The class selection of one star icon in `renderStars`
(`SearchPage.tsx` lines 153-167 and `ComparePage.tsx` lines 111-124):
full when `i < Math.floor(rating)`, else half when `i < rating`, else
empty. -/
def starGlyph (rating : ℚ) (i : ℕ) : StarGlyph :=
  if (i : ℚ) < ((⌊rating⌋ : ℤ) : ℚ) then StarGlyph.full
  else if (i : ℚ) < rating then StarGlyph.half
  else StarGlyph.empty

/-- `renderStars`: `Array.from({length: 5}, (_, i) => ...)`. -/
def renderStars (rating : ℚ) : List StarGlyph :=
  (List.range 5).map (starGlyph rating)

/-! ## Sample data for concrete scenarios -/

/-- A blank school record used as a base for samples. -/
def baseSchool : School :=
  { id := "", name := "", address := "", city := "", state := ""
    phone := none, website := none, schoolType := "public", gradeLevels := "K-12"
    overallRating := 0, academicsRating := 0, facilitiesRating := 0
    teachersRating := 0, safetyRating := 0, extracurricularsRating := 0
    totalReviews := 0 }

def exampleSchoolA : School := { baseSchool with id := "sch-a", name := "Adams" }

def exampleSchoolB : School := { baseSchool with id := "sch-b", name := "Baker" }

def exampleSchoolC : School := { baseSchool with id := "sch-c", name := "Carver" }

def exampleSchoolD : School := { baseSchool with id := "sch-d", name := "Dewey" }

def exampleSchoolE : School := { baseSchool with id := "sch-e", name := "Euclid" }

/-- Academics 4.0, for the tie-break scenario. -/
def tieSchoolA : School :=
  { baseSchool with id := "tie-a", name := "Fulton", academicsRating := 4 }

/-- Academics 4.5, for the tie-break scenario. -/
def tieSchoolB : School :=
  { baseSchool with id := "tie-b", name := "Grant", academicsRating := 9/2 }

/-- Academics 4.5, for the tie-break scenario. -/
def tieSchoolC : School :=
  { baseSchool with id := "tie-c", name := "Hughes", academicsRating := 9/2 }

/-- The initial state of the Compare view. -/
def emptyCompareState : CompareState :=
  { selectedSchools := [], searchResults := [], searchQuery := "", showSearch := false }

/-- A raw school record whose nullable rating fields are all absent. -/
def rawSchoolMissingRatings : RawSchool :=
  { id := "sch-null", name := "Nullfield High", address := "9 Elm St"
    city := "Springfield", state := "IL", zip_code := none, phone := none
    website := none, school_type := "public", grade_levels := "9-12"
    description := none, image_url := none, overall_rating := none
    academics_rating := none, facilities_rating := none, teachers_rating := none
    safety_rating := none, extracurriculars_rating := none, total_reviews := none }

/-- A raw review with `would_recommend = 1` and an absent overall rating. -/
def rawReviewYes : RawReview :=
  { id := "rev-1", overall_rating := none, academics_rating := some 4
    facilities_rating := some 4, teachers_rating := some 4, safety_rating := some 4
    extracurriculars_rating := some 4, title := "Great", content := "Good school"
    pros := none, cons := none, would_recommend := 1, graduation_year := none
    relationship := "parent", created_at := "2024-01-01", user_id := "u1" }

/-- A raw review with `would_recommend = 0`. -/
def rawReviewNo : RawReview :=
  { rawReviewYes with id := "rev-2", would_recommend := 0 }

/-- A previously displayed search result. -/
def staleResult : SearchSchool :=
  { id := "sch-1", name := "Lincoln Elementary", address := "1 Oak St"
    city := "Lincoln", state := "NE", schoolType := "public", gradeLevels := "K-5"
    overallRating := 4, totalReviews := 12, imageUrl := none }

/-! ## Helper lemmas -/

lemma jsOrZero_some (x : ℚ) : jsOrZero (some x) = x := by
  by_cases h : x = 0
  · simp [jsOrZero, h]
  · simp [jsOrZero, h]

lemma foldl_max_init_le (xs : List ℚ) (a : ℚ) : a ≤ xs.foldl max a := by
  induction xs generalizing a with
  | nil => simp
  | cons x xs ih =>
    simp only [List.foldl_cons]
    exact le_trans (le_max_left a x) (ih (max a x))

lemma foldl_max_le_of_mem {xs : List ℚ} {x : ℚ} (hx : x ∈ xs) :
    ∀ a, x ≤ xs.foldl max a := by
  induction hx with
  | head ys =>
    intro a
    simp only [List.foldl_cons]
    exact le_trans (le_max_right a x) (foldl_max_init_le ys _)
  | tail y _ ih =>
    intro a
    simp only [List.foldl_cons]
    exact ih _

lemma foldl_max_mem (xs : List ℚ) : ∀ a, xs.foldl max a = a ∨ xs.foldl max a ∈ xs := by
  induction xs with
  | nil => intro a; left; rfl
  | cons y ys ih =>
    intro a
    simp only [List.foldl_cons]
    rcases ih (max a y) with h | h
    · rcases max_choice a y with hm | hm
      · left; rw [h, hm]
      · right; rw [h, hm]; exact List.mem_cons_self y ys
    · right; exact List.mem_cons_of_mem y h

lemma jsMathMax_is_ub {l : List ℚ} {x : ℚ} (h : x ∈ l) : x ≤ jsMathMax l := by
  cases l with
  | nil => cases h
  | cons y ys =>
    rcases List.mem_cons.mp h with rfl | h
    · exact foldl_max_init_le ys x
    · exact foldl_max_le_of_mem h y

lemma jsMathMax_mem {l : List ℚ} (h : l ≠ []) : jsMathMax l ∈ l := by
  cases l with
  | nil => exact absurd rfl h
  | cons y ys =>
    show ys.foldl max y ∈ y :: ys
    rcases foldl_max_mem ys y with h | h
    · rw [h]; exact List.mem_cons_self y ys
    · exact List.mem_cons_of_mem y h

lemma getHighestRating_cons (hd : School) (tl : List School) (c : RatingCategory) :
    getHighestRating (hd :: tl) c = jsMathMax ((hd :: tl).map (fun s => s.rating c)) := by
  simp [getHighestRating]

lemma getHighestRating_is_ub {sel : List School} {s : School} (c : RatingCategory)
    (hs : s ∈ sel) : s.rating c ≤ getHighestRating sel c := by
  cases sel with
  | nil => cases hs
  | cons hd tl =>
    rw [getHighestRating_cons]
    exact jsMathMax_is_ub (List.mem_map_of_mem _ hs)

lemma getHighestRating_attained {sel : List School} (c : RatingCategory)
    (h : sel ≠ []) : ∃ s ∈ sel, getHighestRating sel c = s.rating c := by
  cases sel with
  | nil => exact absurd rfl h
  | cons hd tl =>
    rw [getHighestRating_cons]
    have hmem : jsMathMax ((hd :: tl).map (fun s => s.rating c)) ∈
        (hd :: tl).map (fun s => s.rating c) :=
      jsMathMax_mem (by simp)
    rcases List.mem_map.mp hmem with ⟨s, hs, heq⟩
    exact ⟨s, hs, heq.symm⟩

/-! ## Claim theorems -/

/-- C4: `highestInCategory(category)` (code: `getHighestRating`) returns
0 on an empty comparison set, and on a non-empty set returns the maximum
value of the named rating field across all schools in the set; over
academics values [4.0, 4.5, 4.5] it returns 4.5. -/
theorem highestInCategory_spec :
    (∀ c : RatingCategory, getHighestRating [] c = 0)
    ∧ (∀ (sel : List School) (c : RatingCategory), sel ≠ [] →
        (∀ s ∈ sel, s.rating c ≤ getHighestRating sel c)
        ∧ ∃ s ∈ sel, getHighestRating sel c = s.rating c)
    ∧ getHighestRating [tieSchoolA, tieSchoolB, tieSchoolC]
        RatingCategory.academicsRating = 9/2 := by
  refine ⟨fun c => rfl, fun sel c h => ⟨fun s hs => getHighestRating_is_ub c hs,
    getHighestRating_attained c h⟩, ?_⟩
  norm_num [getHighestRating, jsMathMax, tieSchoolA, tieSchoolB, tieSchoolC,
    baseSchool, School.rating, max_def]

/-- C4 witness: the characterization applied to the concrete three-school
set with academics values [4.0, 4.5, 4.5]. -/
theorem highestInCategory_check :
    (∀ s ∈ [tieSchoolA, tieSchoolB, tieSchoolC],
        s.rating RatingCategory.academicsRating
          ≤ getHighestRating [tieSchoolA, tieSchoolB, tieSchoolC]
              RatingCategory.academicsRating)
    ∧ ∃ s ∈ [tieSchoolA, tieSchoolB, tieSchoolC],
        getHighestRating [tieSchoolA, tieSchoolB, tieSchoolC]
            RatingCategory.academicsRating = s.rating RatingCategory.academicsRating :=
  highestInCategory_spec.2.1 [tieSchoolA, tieSchoolB, tieSchoolC]
    RatingCategory.academicsRating (by simp)

/-- C5: the cell of a school is highlighted exactly when its rating equals
the maximum over the comparison set, so every school sharing the maximum
is highlighted; on academics [4.0, 4.5, 4.5] both 4.5 schools are
highlighted and the 4.0 school is not. -/
theorem highlight_spec :
    (∀ (sel : List School) (c : RatingCategory) (s : School), sel ≠ [] → s ∈ sel →
        (isHighlighted sel c s = true ↔ ∀ t ∈ sel, t.rating c ≤ s.rating c))
    ∧ (∀ (sel : List School) (c : RatingCategory) (s t : School),
        s.rating c = t.rating c → isHighlighted sel c s = isHighlighted sel c t)
    ∧ isHighlighted [tieSchoolA, tieSchoolB, tieSchoolC]
        RatingCategory.academicsRating tieSchoolB = true
    ∧ isHighlighted [tieSchoolA, tieSchoolB, tieSchoolC]
        RatingCategory.academicsRating tieSchoolC = true
    ∧ isHighlighted [tieSchoolA, tieSchoolB, tieSchoolC]
        RatingCategory.academicsRating tieSchoolA = false := by
  refine ⟨?_, ?_, ?_, ?_, ?_⟩
  · intro sel c s hne hs
    simp only [isHighlighted, decide_eq_true_eq]
    constructor
    · intro h t ht
      rw [h]
      exact getHighestRating_is_ub c ht
    · intro h
      rcases getHighestRating_attained c hne with ⟨u, hu, hequ⟩
      exact le_antisymm (getHighestRating_is_ub c hs) (hequ ▸ h u hu)
  · intro sel c s t hst
    simp [isHighlighted, hst]
  · norm_num [isHighlighted, getHighestRating, jsMathMax, tieSchoolA, tieSchoolB,
      tieSchoolC, baseSchool, School.rating, max_def]
  · norm_num [isHighlighted, getHighestRating, jsMathMax, tieSchoolA, tieSchoolB,
      tieSchoolC, baseSchool, School.rating, max_def]
  · norm_num [isHighlighted, getHighestRating, jsMathMax, tieSchoolA, tieSchoolB,
      tieSchoolC, baseSchool, School.rating, max_def]

/-- C5 witness: the highlight characterization applied to a concrete
singleton set. -/
theorem highlight_check :
    isHighlighted [tieSchoolB] RatingCategory.academicsRating tieSchoolB = true :=
  (highlight_spec.1 [tieSchoolB] RatingCategory.academicsRating tieSchoolB
      (by simp) (by simp)).mpr
    (fun t ht => by rcases List.mem_singleton.mp ht with rfl; exact le_rfl)

/-- C6: the sort-selection mapping is total: `rating` maps to
overallRating descending, `reviews` to totalReviews descending, `name`
to name ascending, and anything else falls back to overallRating
descending. -/
theorem sort_mapping_total :
    sortOrder "rating" = ⟨"overall_rating", SortDir.desc⟩
    ∧ sortOrder "reviews" = ⟨"total_reviews", SortDir.desc⟩
    ∧ sortOrder "name" = ⟨"name", SortDir.asc⟩
    ∧ ∀ s : String, s ≠ "rating" → s ≠ "reviews" → s ≠ "name" →
        sortOrder s = ⟨"overall_rating", SortDir.desc⟩ := by
  refine ⟨by decide, by decide, by decide, ?_⟩
  intro s h1 h2 h3
  simp [sortOrder, h1, h2, h3]

/-- C6 witness: the fallback applied to the unrecognized value "foo". -/
theorem sort_mapping_check :
    sortOrder "foo" = ⟨"overall_rating", SortDir.desc⟩ :=
  sort_mapping_total.2.2.2 "foo" (by decide) (by decide) (by decide)

/-- C9: every query issued by the main search view carries limit 50,
and every query issued by the compare-add search box carries limit 10. -/
theorem result_caps :
    (∀ (q : String) (f : Filters), (searchSchoolsSpec q f).limit = 50)
    ∧ (∀ (q : String) (sp : ListSpec), compareSearchSpec q = some sp → sp.limit = 10) := by
  constructor
  · intro q f
    rfl
  · intro q sp h
    unfold compareSearchSpec at h
    split_ifs at h with hq
    have h2 := Option.some.inj h
    subst h2
    rfl

/-- C9 witness: the caps evaluated on the concrete query "Lincoln". -/
theorem result_caps_check :
    (searchSchoolsSpec "Lincoln" ⟨[], "", 4, "name"⟩).limit = 50
    ∧ ({ whereOpt := some { OR := some (textOrClauses "Lincoln") }
         orderBy := ⟨"overall_rating", SortDir.desc⟩
         limit := 10 } : ListSpec).limit = 10 :=
  ⟨result_caps.1 "Lincoln" ⟨[], "", 4, "name"⟩,
   result_caps.2 "Lincoln" _ (by decide)⟩

lemma addSchool_guard_false {st : CompareState} {s : School}
    (h : ¬ (st.selectedSchools.length < 4
      ∧ ¬ st.selectedSchools.any (fun t => t.id == s.id) = true)) :
    addSchool st s = st := by
  unfold addSchool
  rw [if_neg h]

/-- C2: `addSchool` is a no-op when the comparison set already has 4
members or already contains the id of the school, otherwise appends at the
end; the size of the set stays ≤ 4 and its ids stay duplicate-free; adding a
5th school to a full set of 4 leaves it unchanged in insertion order. -/
theorem compare_add_spec :
    (∀ (st : CompareState) (s : School), 4 ≤ st.selectedSchools.length →
        addSchool st s = st)
    ∧ (∀ (st : CompareState) (s : School), (∃ t ∈ st.selectedSchools, t.id = s.id) →
        addSchool st s = st)
    ∧ (∀ (st : CompareState) (s : School), st.selectedSchools.length < 4 →
        (∀ t ∈ st.selectedSchools, t.id ≠ s.id) →
        (addSchool st s).selectedSchools = st.selectedSchools ++ [s])
    ∧ (∀ (st : CompareState) (s : School), st.selectedSchools.length ≤ 4 →
        (addSchool st s).selectedSchools.length ≤ 4)
    ∧ (∀ (st : CompareState) (s : School), (st.selectedSchools.map School.id).Nodup →
        ((addSchool st s).selectedSchools.map School.id).Nodup)
    ∧ (addSchool (addSchool (addSchool (addSchool (addSchool emptyCompareState
          exampleSchoolA) exampleSchoolB) exampleSchoolC) exampleSchoolD)
        exampleSchoolE).selectedSchools
      = [exampleSchoolA, exampleSchoolB, exampleSchoolC, exampleSchoolD] := by
  refine ⟨?_, ?_, ?_, ?_, ?_, ?_⟩
  · intro st s hlen
    exact addSchool_guard_false (fun hg => absurd hg.1 (Nat.not_lt.mpr hlen))
  · intro st s hdup
    refine addSchool_guard_false (fun hg => hg.2 ?_)
    rcases hdup with ⟨t, ht, hid⟩
    exact List.any_eq_true.mpr ⟨t, ht, beq_iff_eq.mpr hid⟩
  · intro st s hlen hids
    unfold addSchool
    rw [if_pos]
    constructor
    · exact hlen
    · intro hany
      rcases List.any_eq_true.mp hany with ⟨t, ht, hbeq⟩
      exact hids t ht (beq_iff_eq.mp hbeq)
  · intro st s hlen
    unfold addSchool
    split_ifs with hg
    · simpa using Nat.succ_le_of_lt hg.1
    · exact hlen
  · intro st s hnd
    unfold addSchool
    split_ifs with hg
    · simp only [List.map_append, List.map_cons, List.map_nil]
      rw [List.nodup_append]
      refine ⟨hnd, List.nodup_singleton _, ?_⟩
      intro a ha hb
      rcases List.mem_map.mp ha with ⟨t, ht, rfl⟩
      rcases List.mem_singleton.mp hb with h
      exact hg.2 (List.any_eq_true.mpr ⟨t, ht, beq_iff_eq.mpr h⟩)
    · exact hnd
  · decide

/-- C2 witness: the no-op parts applied to a full four-school state. -/
theorem compare_add_check :
    addSchool { selectedSchools := [exampleSchoolA, exampleSchoolB, exampleSchoolC,
        exampleSchoolD], searchResults := [], searchQuery := "", showSearch := false }
      exampleSchoolE
    = { selectedSchools := [exampleSchoolA, exampleSchoolB, exampleSchoolC,
        exampleSchoolD], searchResults := [], searchQuery := "", showSearch := false } :=
  compare_add_spec.1 _ exampleSchoolE (by decide)

/-- The Compare view invariant settled by C10: no displayed add-search
result carries the id of a school already in the comparison set. -/
def resultsDisjointFromSelection (st : CompareState) : Prop :=
  ∀ r ∈ st.searchResults, ∀ t ∈ st.selectedSchools, r.id ≠ t.id

/-- C10: backend results are filtered against the current selection
before display, `addSchool` preserves the disjointness of displayed
results from the selection, and a successfully added school disappears
from the displayed results. -/
theorem compare_results_exclude_selected :
    (∀ (st : CompareState) (schools : List School),
        resultsDisjointFromSelection (receiveResults st schools))
    ∧ (∀ (st : CompareState) (s : School), resultsDisjointFromSelection st →
        resultsDisjointFromSelection (addSchool st s))
    ∧ (∀ (st : CompareState) (s : School), st.selectedSchools.length < 4 →
        (∀ t ∈ st.selectedSchools, t.id ≠ s.id) →
        ∀ r ∈ (addSchool st s).searchResults, r.id ≠ s.id) := by
  refine ⟨?_, ?_, ?_⟩
  · intro st schools r hr t ht
    simp only [receiveResults, List.mem_filter, Bool.not_eq_eq_eq_not, Bool.not_true,
      List.any_eq_false, beq_iff_eq] at hr
    intro h
    exact hr.2 t ht h.symm
  · intro st s hinv
    unfold addSchool
    split_ifs with hg
    · intro r hr t ht
      simp only [List.mem_filter, Bool.not_eq_eq_eq_not, Bool.not_true,
        beq_eq_false_iff_ne, ne_eq] at hr
      rcases List.mem_append.mp ht with h | h
      · exact hinv r hr.1 t h
      · rcases List.mem_singleton.mp h with rfl
        exact hr.2
    · exact hinv
  · intro st s hlen hids
    unfold addSchool
    rw [if_pos ⟨hlen, fun hany => by
      rcases List.any_eq_true.mp hany with ⟨t, ht, hbeq⟩
      exact hids t ht (beq_iff_eq.mp hbeq)⟩]
    intro r hr
    simp only [List.mem_filter, Bool.not_eq_eq_eq_not, Bool.not_true,
      beq_eq_false_iff_ne, ne_eq] at hr
    exact hr.2

/-- C10 witness: filtering and the add-time removal applied to concrete
states. -/
theorem compare_results_check :
    resultsDisjointFromSelection (receiveResults
      { selectedSchools := [exampleSchoolA], searchResults := [], searchQuery := "a"
        showSearch := true } [exampleSchoolA, exampleSchoolB])
    ∧ ∀ r ∈ (addSchool
        { selectedSchools := [exampleSchoolA], searchResults := [exampleSchoolB]
          searchQuery := "b", showSearch := true } exampleSchoolB).searchResults,
        r.id ≠ exampleSchoolB.id :=
  ⟨compare_results_exclude_selected.1 _ _,
   compare_results_exclude_selected.2.2 _ exampleSchoolB (by decide) (by decide)⟩

/-- C1: the search query builder emits exactly the clauses of the
non-default filter fields — the name/city/address `contains` disjunction
when the trimmed text is non-empty, the `school_type in` clause when the
type set is non-empty, the `grade_levels contains` clause when a grade
level is selected, the `overall_rating >= minRating` clause when
`minRating > 0` — and no filter at all when every field is at its
default; searching "Lincoln" with minRating 4 and sortBy "name" yields
the text disjunction plus the rating bound, ordered by name ascending,
capped at 50. -/
theorem search_query_builder_spec :
    (∀ (q : String) (f : Filters),
      ((buildWhere q f).OR = some (textOrClauses q) ↔ jsTrim q ≠ "")
      ∧ ((buildWhere q f).OR = none ↔ jsTrim q = "")
      ∧ ((buildWhere q f).school_type = some f.schoolType ↔ f.schoolType ≠ [])
      ∧ ((buildWhere q f).school_type = none ↔ f.schoolType = [])
      ∧ ((buildWhere q f).grade_levels = some f.gradeLevel ↔ f.gradeLevel ≠ "")
      ∧ ((buildWhere q f).grade_levels = none ↔ f.gradeLevel = "")
      ∧ ((buildWhere q f).overall_rating = some f.minRating ↔ 0 < f.minRating)
      ∧ ((buildWhere q f).overall_rating = none ↔ ¬ 0 < f.minRating)
      ∧ ((searchSchoolsSpec q f).whereOpt = none ↔
          (jsTrim q = "" ∧ f.schoolType = [] ∧ f.gradeLevel = "" ∧ ¬ 0 < f.minRating))
      ∧ ((searchSchoolsSpec q f).whereOpt = none
          ∨ (searchSchoolsSpec q f).whereOpt = some (buildWhere q f))
      ∧ (searchSchoolsSpec q f).orderBy = sortOrder f.sortBy
      ∧ (searchSchoolsSpec q f).limit = 50)
    ∧ searchSchoolsSpec "Lincoln" ⟨[], "", 4, "name"⟩ =
        { whereOpt := some
            { OR := some (textOrClauses "Lincoln")
              school_type := none
              grade_levels := none
              overall_rating := some 4 }
          orderBy := ⟨"name", SortDir.asc⟩
          limit := 50 } := by
  constructor
  · intro q f
    by_cases h1 : jsTrim q = "" <;> by_cases h2 : f.schoolType = [] <;>
      by_cases h3 : f.gradeLevel = "" <;> by_cases h4 : 0 < f.minRating <;>
      simp [searchSchoolsSpec, buildWhere, WhereClause.hasAnyKey, h1, h2, h3, h4,
        List.length_pos, not_lt.mpr]
  · decide

/-- C1 witness: the text-disjunction clause evaluated on the concrete
query "Lincoln". -/
theorem search_query_builder_check :
    (buildWhere "Lincoln" ⟨[], "", 4, "name"⟩).OR = some (textOrClauses "Lincoln") :=
  ((search_query_builder_spec.1 "Lincoln" ⟨[], "", 4, "name"⟩).1).mpr (by decide)

lemma renderStars_getD (r : ℚ) (i : ℕ) (h : i < 5) :
    (renderStars r).getD i StarGlyph.empty = starGlyph r i := by
  interval_cases i <;> rfl

lemma starGlyph_clamp (r : ℚ) (i : ℕ) (hi : i < 5) :
    starGlyph r i = starGlyph (max 0 (min r 5)) i := by
  have hi4 : (i : ℚ) ≤ 4 := by exact_mod_cast Nat.lt_succ_iff.mp hi
  have hi0 : (0 : ℚ) ≤ (i : ℚ) := by positivity
  by_cases h0 : r < 0
  · have hcl : max 0 (min r 5) = 0 := by
      rw [min_eq_left (by linarith), max_eq_left (le_of_lt h0)]
    rw [hcl]
    have hf : ¬ ((i : ℚ) < ((⌊r⌋ : ℤ) : ℚ)) := by
      have := Int.floor_le r
      push_neg
      linarith
    have hf0 : ¬ ((i : ℚ) < ((⌊(0 : ℚ)⌋ : ℤ) : ℚ)) := by
      norm_num
    unfold starGlyph
    rw [if_neg hf, if_neg (by linarith : ¬ ((i : ℚ) < r)), if_neg hf0,
      if_neg (by linarith : ¬ ((i : ℚ) < (0 : ℚ)))]
  · by_cases h5 : 5 < r
    · have hcl : max 0 (min r 5) = 5 := by
        rw [min_eq_right (le_of_lt h5), max_eq_right (by norm_num)]
      rw [hcl]
      have hfl : (5 : ℤ) ≤ ⌊r⌋ := Int.le_floor.mpr (by exact_mod_cast le_of_lt h5)
      have hf : (i : ℚ) < ((⌊r⌋ : ℤ) : ℚ) := by
        have : ((5 : ℤ) : ℚ) ≤ ((⌊r⌋ : ℤ) : ℚ) := by exact_mod_cast hfl
        push_cast at this ⊢
        linarith
      have hf5 : (i : ℚ) < ((⌊(5 : ℚ)⌋ : ℤ) : ℚ) := by
        norm_num
        linarith
      unfold starGlyph
      rw [if_pos hf, if_pos hf5]
    · have hcl : max 0 (min r 5) = r := by
        rw [min_eq_left (not_lt.mp h5), max_eq_right (not_lt.mp h0)]
      rw [hcl]

/-- C7: `renderStars` always yields exactly 5 glyphs; position `i` is
full iff `i < floor(rating)`, half iff `floor(rating) ≤ i < rating`,
empty iff `rating ≤ i`; `renderStars 3.5` is three full, one half, one
empty, `renderStars 0` is five empty, `renderStars 5` is five full; and
any input renders as its clamp to [0,5], so out-of-range inputs are
harmless. -/
theorem starPattern_spec :
    (∀ r : ℚ, (renderStars r).length = 5)
    ∧ (∀ (r : ℚ) (i : ℕ), i < 5 →
        ((renderStars r).getD i StarGlyph.empty = StarGlyph.full ↔
          (i : ℚ) < ((⌊r⌋ : ℤ) : ℚ))
        ∧ ((renderStars r).getD i StarGlyph.empty = StarGlyph.half ↔
          (((⌊r⌋ : ℤ) : ℚ) ≤ (i : ℚ) ∧ (i : ℚ) < r))
        ∧ ((renderStars r).getD i StarGlyph.empty = StarGlyph.empty ↔ r ≤ (i : ℚ)))
    ∧ renderStars (7/2) = [StarGlyph.full, StarGlyph.full, StarGlyph.full,
        StarGlyph.half, StarGlyph.empty]
    ∧ renderStars 0 = [StarGlyph.empty, StarGlyph.empty, StarGlyph.empty,
        StarGlyph.empty, StarGlyph.empty]
    ∧ renderStars 5 = [StarGlyph.full, StarGlyph.full, StarGlyph.full,
        StarGlyph.full, StarGlyph.full]
    ∧ (∀ r : ℚ, renderStars r = renderStars (max 0 (min r 5))) := by
  refine ⟨?_, ?_, ?_, ?_, ?_, ?_⟩
  · intro r
    rfl
  · intro r i hi
    rw [renderStars_getD r i hi]
    have hfr : ((⌊r⌋ : ℤ) : ℚ) ≤ r := Int.floor_le r
    unfold starGlyph
    by_cases h1 : (i : ℚ) < ((⌊r⌋ : ℤ) : ℚ)
    · rw [if_pos h1]
      refine ⟨⟨fun _ => h1, fun _ => rfl⟩, ?_, ?_⟩
      · constructor
        · intro h
          cases h
        · intro h
          exact absurd h1 (not_lt.mpr h.1)
      · constructor
        · intro h
          cases h
        · intro h
          exact absurd (lt_of_lt_of_le h1 hfr) (not_lt.mpr h)
    · rw [if_neg h1]
      by_cases h2 : (i : ℚ) < r
      · rw [if_pos h2]
        refine ⟨⟨fun h => StarGlyph.noConfusion h, fun h => absurd h h1⟩,
          ⟨fun _ => ⟨not_lt.mp h1, h2⟩, fun _ => rfl⟩, ?_⟩
        constructor
        · intro h
          cases h
        · intro h
          exact absurd h2 (not_lt.mpr h)
      · rw [if_neg h2]
        refine ⟨⟨fun h => StarGlyph.noConfusion h, fun h => absurd h h1⟩, ?_, ?_⟩
        · constructor
          · intro h
            cases h
          · intro h
            exact absurd h.2 h2
        · exact ⟨fun _ => not_lt.mp h2, fun _ => rfl⟩
  · have h : (⌊(7/2 : ℚ)⌋ : ℤ) = 3 := by norm_num [Int.floor_eq_iff]
    simp [renderStars, starGlyph, h, List.range_succ]
    norm_num
  · simp [renderStars, starGlyph, List.range_succ]
    norm_num
  · have h : (⌊(5 : ℚ)⌋ : ℤ) = 5 := by norm_num
    simp [renderStars, starGlyph, h, List.range_succ]
    norm_num
  · intro r
    show [starGlyph r 0, starGlyph r 1, starGlyph r 2, starGlyph r 3, starGlyph r 4]
      = [starGlyph (max 0 (min r 5)) 0, starGlyph (max 0 (min r 5)) 1,
         starGlyph (max 0 (min r 5)) 2, starGlyph (max 0 (min r 5)) 3,
         starGlyph (max 0 (min r 5)) 4]
    rw [starGlyph_clamp r 0 (by norm_num), starGlyph_clamp r 1 (by norm_num),
      starGlyph_clamp r 2 (by norm_num), starGlyph_clamp r 3 (by norm_num),
      starGlyph_clamp r 4 (by norm_num)]

/-- C7 witness: the positional characterization applied at rating 0,
position 0. -/
theorem starPattern_check :
    (renderStars 0).getD 0 StarGlyph.empty = StarGlyph.empty :=
  ((starPattern_spec.2.1 0 0 (by decide)).2.2).mpr (by simp)

/-- C8 counterexample: after a failed search with a previously displayed
result, the displayed list still holds that result — it is not resolved
to an empty result set. -/
theorem search_fetch_failure_not_empty :
    searchFetchUpdate [staleResult] (Except.error "network failure") = [staleResult]
    ∧ searchFetchUpdate [staleResult] (Except.error "network failure")
        ≠ ([] : List SearchSchool) := by
  constructor
  · rfl
  · simp [searchFetchUpdate]

/-- C8 (amended): a backend failure during a list-query fetch is caught
and leaves the previously displayed result list unchanged, in both the
Search view and the compare-add search; in particular a failure before
any successful fetch leaves the initial empty list, and no error value
reaches the rendered state. -/
theorem fetch_failure_preserves_results :
    (∀ (prev : List SearchSchool) (e : String),
        searchFetchUpdate prev (Except.error e) = prev)
    ∧ (∀ (st : CompareState) (e : String),
        compareFetchUpdate st (Except.error e) = st)
    ∧ (∀ e : String, searchFetchUpdate [] (Except.error e) = []) :=
  ⟨fun _ _ => rfl, fun _ _ => rfl, fun _ => rfl⟩

/-- C3: the Search view mapper does default absent ratings to 0 and
the review mapper derives `wouldRecommend` via `value > 0`, but the
Compare view add-search mapping and the home page featured-schools
mapping copy rating fields through unchanged, so an absent
`overall_rating` stays absent rather than becoming 0. -/
theorem rating_default_mapping_bug :
    (mapSearchSchool rawSchoolMissingRatings).overallRating = 0
    ∧ (mapSearchSchool rawSchoolMissingRatings).totalReviews = 0
    ∧ (∀ x : ℚ, jsOrZero (some x) = x)
    ∧ (mapCompareSchool rawSchoolMissingRatings).overallRating = none
    ∧ (mapCompareSchool rawSchoolMissingRatings).overallRating ≠ some 0
    ∧ (mapCompareSchool rawSchoolMissingRatings).academicsRating ≠ some 0
    ∧ (mapHomeSchool rawSchoolMissingRatings).overallRating = none
    ∧ (mapHomeSchool rawSchoolMissingRatings).overallRating ≠ some 0
    ∧ (mapReview rawReviewYes).wouldRecommend = true
    ∧ (mapReview rawReviewNo).wouldRecommend = false
    ∧ (mapReview rawReviewYes).overallRating = 0 := by
  refine ⟨rfl, rfl, jsOrZero_some, rfl, ?_, ?_, rfl, ?_, ?_, ?_, rfl⟩
  · simp [mapCompareSchool, rawSchoolMissingRatings]
  · simp [mapCompareSchool, rawSchoolMissingRatings]
  · simp [mapHomeSchool, rawSchoolMissingRatings]
  · norm_num [mapReview, rawReviewYes]
  · norm_num [mapReview, rawReviewNo, rawReviewYes]

end SchoolEval
